import Mathlib

/-!
# Verification of the segmentation-session and edit-compositing engine

Shallow embedding of the core of `py/app.py` (Synthetic-Image-Generator):
the per-region edit compositor (`apply_edits`, `_unsharp_mask`), the
opacity blending blocks of `sam_apply` / `_apply_templates_with_class_filter`,
the SAM prediction wrapper with its embedding cache (`_predict_sam_mask`),
the session store (`_session_init`, `_add_component`), the bounding-box and
area computation, the streaming batch endpoint (`sam_batch_process_stream`)
and class-filtered template application
(`_apply_templates_with_class_filter`).

Conventions of the embedding:
* images are flattened (row-major) lists of pixels; a pixel is a `Tri` of
  channel values, `ℕ` for 8-bit images and `ℚ` for the normalized float
  images the compositor works on.  Machine floats are idealized as exact
  rationals; `astype(np.uint8)` is truncation toward zero of non-negative
  values, modelled with `Int.floor`.
* external library collaborators that live outside the repository
  (the Gaussian blur of `skimage.filters.gaussian`, the seeded
  `np.random.default_rng(...).normal`, the float power `**`, PIL decoding
  and PNG encoding, the SAM predictor itself) are function parameters,
  bundled in small environment structures; every claim is proved for all
  instantiations (or evaluated on a concrete one).
* Python dictionary entries that may be present-with-`None` are modelled as
  `Option (Option ℚ)`: `none` means the key is absent, `some none` means the
  key is present holding `None` (or a value `float` rejects), `some (some v)`
  a numeric value.
* Python exceptions are `Except String`; mutations of the module-level
  globals that survive an exception are modelled by returning the updated
  state alongside the `Except` result where a claim depends on it.
-/

/-- A triple of channel values (RGB or HSV). -/
structure Tri (α : Type) where
  c0 : α
  c1 : α
  c2 : α
deriving DecidableEq, Repr

namespace Tri

/-- Apply a function to every channel. -/
def map (f : α → β) (t : Tri α) : Tri β := ⟨f t.c0, f t.c1, f t.c2⟩

/-- Combine two triples channel-wise. -/
def zip (f : α → β → γ) (s : Tri α) (t : Tri β) : Tri γ :=
  ⟨f s.c0 t.c0, f s.c1 t.c1, f s.c2 t.c2⟩

end Tri

/-- An 8-bit RGB image, flattened row-major (values 0..255). -/
abbrev Image8 := List (Tri ℕ)

/-- A normalized float image (values in `[0,1]`), flattened row-major. -/
abbrev ImageF := List (Tri ℚ)

/-- A flattened boolean mask. -/
abbrev Mask1 := List Bool

/-- A two-dimensional boolean mask (list of rows), as produced by SAM. -/
abbrev Mask2 := List (List Bool)

/-- Embedding of `np.clip(x, 0, 1)`. -/
def clamp01 (x : ℚ) : ℚ := max 0 (min 1 x)

/-- Embedding of `(x * 255).astype(np.uint8)` for `x` a non-negative float:
truncation toward zero. -/
def toU8 (x : ℚ) : ℕ := (⌊x * 255⌋).toNat

/-- Python float `% 1.0` (result in `[0,1)`). -/
def fmod1 (x : ℚ) : ℚ := x - ⌊x⌋

/-- Number of `true` entries of a mask (`mask.sum()` on booleans). -/
def countTrue (m : Mask1) : ℕ := m.countP id

/-- Fancy indexing `xs[mask]`: the entries of `xs` at the `true` positions of `mask`,
in order. -/
def selectM (mask : Mask1) (xs : List α) : List α :=
  (mask.zip xs).filterMap (fun p => if p.1 then some p.2 else none)

/-- Fancy assignment `xs[mask] = region`: replace the entries of `xs` at the `true`
positions of `mask` by the entries of `region`, in order. -/
def writeBack : Mask1 → List α → List α → List α
  | _, [], _ => []
  | [], xs, _ => xs
  | b :: ms, x :: xs, rs =>
    if b then
      match rs with
      | r :: rs' => r :: writeBack ms xs rs'
      | [] => x :: writeBack ms xs []
    else x :: writeBack ms xs rs

/-- Three-list `zipWith` (truncating at the shortest list). -/
def zipWith3' (f : α → β → γ → δ) : List α → List β → List γ → List δ
  | a :: as, b :: bs, c :: cs => f a b c :: zipWith3' f as bs cs
  | _, _, _ => []

/-- Embedding of `np.allclose(a, b)` with numpy's default tolerances
`rtol = 1e-5`, `atol = 1e-8`. -/
def allcloseQ (a b : List ℚ) : Bool :=
  (a.zip b).all (fun p => |p.1 - p.2| ≤ 1 / 100000000 + (1 / 100000) * |p.2|)

/-- The `gray_input` flag of `apply_edits`:
`np.allclose(rgb[...,0], rgb[...,1]) and np.allclose(rgb[...,1], rgb[...,2])`. -/
def grayInput (rgb : ImageF) : Bool :=
  allcloseQ (rgb.map (·.c0)) (rgb.map (·.c1)) &&
    allcloseQ (rgb.map (·.c1)) (rgb.map (·.c2))

/-- Embedding of `skimage.color.rgb2hsv` on one pixel, over exact rationals.
Channel priority for the hue branch is red, then green, then blue, as in
the skimage source; `h` is `(h' / 6) % 1` and both `h` and `s` are zeroed
where `delta == 0`. -/
def rgb2hsv (p : Tri ℚ) : Tri ℚ :=
  let v := max p.c0 (max p.c1 p.c2)
  let mn := min p.c0 (min p.c1 p.c2)
  let d := v - mn
  let s := if d = 0 then 0 else d / v
  let h :=
    if d = 0 then 0
    else if p.c0 = v then fmod1 (((p.c1 - p.c2) / d) / 6)
    else if p.c1 = v then fmod1 ((2 + (p.c2 - p.c0) / d) / 6)
    else fmod1 ((4 + (p.c0 - p.c1) / d) / 6)
  ⟨h, s, v⟩

/-- Embedding of `skimage.color.hsv2rgb` on one pixel, over exact rationals
(`hi = floor(h*6) % 6` selects the sector). -/
def hsv2rgb (x : Tri ℚ) : Tri ℚ :=
  let hi : ℤ := ⌊x.c0 * 6⌋
  let f := x.c0 * 6 - (hi : ℚ)
  let v := x.c2
  let s := x.c1
  let pp := v * (1 - s)
  let q := v * (1 - f * s)
  let t := v * (1 - (1 - f) * s)
  match (hi % 6).toNat with
  | 0 => ⟨v, t, pp⟩
  | 1 => ⟨q, v, pp⟩
  | 2 => ⟨pp, v, t⟩
  | 3 => ⟨pp, q, v⟩
  | 4 => ⟨t, pp, v⟩
  | _ => ⟨v, pp, q⟩

/-- One entry of the `edits` list passed to `apply_edits`.
`hue` and `saturation` are read by key membership in the source
(`if 'hue' in edit:`), so they are `Option (Option ℚ)`: the outer layer is
key presence, the inner layer is the value (`none` for Python `None`, on
which `float(...)` raises).  The numeric fields are read with
`float(edit.get(k, 0.0))`; every caller in the repository supplies them as
numbers (defaulted to 0), so they are plain rationals here. -/
structure Edit where
  id : Option ℤ := none
  brightness : ℚ := 0
  contrast : ℚ := 0
  gamma : ℚ := 0
  hue : Option (Option ℚ) := none
  saturation : Option (Option ℚ) := none
  sharpen : ℚ := 0
  noise : ℚ := 0
deriving DecidableEq

/-- The numeric library collaborators of the compositor, which live outside
the repository: `skimage.filters.gaussian` applied to the extracted region,
the seeded `np.random.default_rng(seed).normal(0, std, (count, 3))` and the
float power `x ** e`. -/
structure NumEnv where
  blur : List (Tri ℚ) → List (Tri ℚ)
  normal : ℤ → ℚ → ℕ → List (Tri ℚ)
  qpow : ℚ → ℚ → ℚ

/-- Embedding of `_unsharp_mask(region, amount, sigma)`: identity for `amount <= 0`,
otherwise `clip(region + amount * (region - blurred), 0, 1)`. -/
def unsharp_mask (blur : List (Tri ℚ) → List (Tri ℚ)) (region : List (Tri ℚ))
    (amount : ℚ) : List (Tri ℚ) :=
  if amount ≤ 0 then region
  else
    List.zipWith (Tri.zip (fun x bx => clamp01 (x + amount * (x - bx))))
      region (blur region)

/-- The noise seed of `apply_edits`:
`int((int(mask.sum()) * (cid_int + 13)) % (2**32-1))`. -/
def noise_seed (count : ℕ) (cid : ℤ) : ℤ :=
  ((count : ℤ) * (cid + 13)) % (2 ^ 32 - 1)

/-- The Gaussian noise field drawn in the noise stage of `apply_edits`:
`np.random.default_rng(seed).normal(0, noise_std, size=(mask.sum(), 3))`
with the deterministic seed `noise_seed`. -/
def noise_field (normal : ℤ → ℚ → ℕ → List (Tri ℚ)) (count : ℕ) (cid : ℤ)
    (std : ℚ) : List (Tri ℚ) :=
  normal (noise_seed count cid) std count

/-- Insert-or-update for the association list modelling a Python dict:
first occurrence fixes the position, a later assignment updates in place. -/
def dictInsert (k : ℤ) (v : Edit) : List (ℤ × Edit) → List (ℤ × Edit)
  | [] => [(k, v)]
  | (k', v') :: t => if k' = k then (k', v) :: t else (k', v') :: dictInsert k v t

/-- The dict comprehension building `edit_map` from the edits list
(entries without an id are dropped, later entries win per id). -/
def build_edit_map (edits : List Edit) : List (ℤ × Edit) :=
  edits.foldl
    (fun m e => match e.id with | some i => dictInsert i e m | none => m) []

/-- The body of the `for cid, edit in edit_map.items():` loop of
`apply_edits`, threading `(result, hsv)`.  `gray` is the `gray_input` flag;
`hsv` is `some _` exactly when the image was not detected as grayscale. -/
def edit_step (nm : NumEnv) (gray : Bool) (objectMask : Mask1)
    (compMask : Option (List ℕ)) (st : ImageF × Option ImageF)
    (ce : ℤ × Edit) : Except String (ImageF × Option ImageF) := do
  let result := st.1
  let hsv := st.2
  let cid := ce.1
  let edit := ce.2
  -- mask = (comp_mask == cid) if comp_mask is not None and comp_mask.max() > 0
  --        else object_mask
  let mask : Mask1 :=
    match compMask with
    | some cm =>
        if cm.any (fun v => 0 < v) then cm.map (fun v => decide ((v : ℤ) = cid))
        else objectMask
    | none => objectMask
  let count := countTrue mask
  if count = 0 then return (result, hsv)
  let region := selectM mask result
  -- Brightness: additive in [0,1] range
  let region :=
    if edit.brightness ≠ 0 then
      region.map (Tri.map (fun x => clamp01 (x + edit.brightness)))
    else region
  -- Contrast: scale around 0.5
  let region :=
    if edit.contrast ≠ 0 then
      region.map (Tri.map (fun x => clamp01 ((x - 1/2) * (1 + edit.contrast) + 1/2)))
    else region
  -- Gamma: power law, exponent 1 / max(1e-3, 1 + gamma)
  let region :=
    if edit.gamma ≠ 0 then
      let gammaVal := max (1/1000) (1 + edit.gamma)
      region.map (Tri.map (fun x => clamp01 (nm.qpow x (1 / gammaVal))))
    else region
  let result := writeBack mask result region
  -- Hue / saturation, on the hsv image precomputed before the loop
  let hsv ← (match gray, hsv with
    | false, some hv => do
        let hreg := selectM mask (hv.map (·.c0))
        let sreg := selectM mask (hv.map (·.c1))
        let hreg ← (match edit.hue with
          | none => pure hreg
          | some none =>
              throw "TypeError: float() argument must not be NoneType"
          | some (some hval) =>
              pure (hreg.map (fun h => fmod1 (h + hval / 360))))
        let sreg ← (match edit.saturation with
          | none => pure sreg
          | some none =>
              throw "TypeError: float() argument must not be NoneType"
          | some (some sval) =>
              pure (sreg.map (fun s => clamp01 (s * (1 + sval)))))
        let hs := writeBack mask (hv.map (·.c0)) hreg
        let ss := writeBack mask (hv.map (·.c1)) sreg
        pure (some (zipWith3' (fun h s t => Tri.mk h s t.c2) hs ss hv))
    | _, hv => pure hv)
  -- Sharpen (unsharp amount)
  let result :=
    if edit.sharpen ≠ 0 then
      writeBack mask result (unsharp_mask nm.blur (selectM mask result) edit.sharpen)
    else result
  -- Gaussian noise, deterministically seeded from (mask.sum(), cid)
  let result :=
    if 0 < edit.noise then
      let n := noise_field nm.normal count cid edit.noise
      writeBack mask result
        (List.zipWith (Tri.zip (fun x nx => clamp01 (x + nx))) (selectM mask result) n)
    else result
  return (result, hsv)

/-- Embedding of `apply_edits(img, object_mask, comp_mask, edits)` of `py/app.py`. -/
def apply_edits (nm : NumEnv) (img : Image8) (objectMask : Mask1)
    (compMask : Option (List ℕ)) (edits : List Edit) : Except String Image8 :=
  if edits = [] then .ok img
  else
    let rgb : ImageF := img.map (Tri.map (fun (v : ℕ) => (v : ℚ) / 255))
    let gray := grayInput rgb
    let em := build_edit_map edits
    let hsv0 : Option ImageF := if gray then none else some (rgb.map rgb2hsv)
    do
      let st ← em.foldlM (edit_step nm gray objectMask compMask) (rgb, hsv0)
      -- if not gray_input and hsv is not None: result = color.hsv2rgb(hsv)
      let result :=
        match gray, st.2 with
        | false, some hv => hv.map hsv2rgb
        | _, _ => st.1
      -- out = img.copy(); out[object_mask] = (result[object_mask]*255).astype(uint8)
      return zipWith3' (fun m orig px => if m then px.map toU8 else orig)
        objectMask img result

/-- The opacity blending block shared verbatim by `sam_apply`,
`sam_batch_process` / `sam_batch_process_stream`, `_apply_templates` and
`_apply_templates_with_class_filter`:

```
if op is not None:
    try: ov = float(op)
    except (TypeError, ValueError): ov = 1.0
    ov = max(0.0, min(1.0, ov))
    if ov < 1.0:
        blend = (ov * edited[mask] + (1-ov) * prev[mask]).astype(np.uint8)
        edited[mask] = blend
```

`op` is `Option (Option ℚ)`: outer layer is `is not None`, inner layer is
float-convertibility. -/
def opacity_blend (op : Option (Option ℚ)) (edited prev : Image8)
    (mask : Mask1) : Image8 :=
  match op with
  | none => edited
  | some o =>
    let ov : ℚ := match o with | none => 1 | some v => v
    let ov := max 0 (min 1 ov)
    if ov < 1 then
      zipWith3' (fun m e p =>
          if m then Tri.zip (fun (x y : ℕ) => (⌊ov * x + (1 - ov) * y⌋).toNat) e p
          else e)
        mask edited prev
    else edited

/-- Embedding of `np.where(mask)` in row-major order, as `(y, x)` pairs. -/
def maskCoords (m : Mask2) : List (ℕ × ℕ) :=
  (m.enum.map (fun r =>
    r.2.enum.filterMap (fun c => if c.2 then some (r.1, c.1) else none))).flatten

/-- Minimum of a list of naturals (`.min()` of a nonempty coordinate array;
0 on the empty list, which the source never reaches). -/
def minL : List ℕ → ℕ
  | [] => 0
  | x :: t => t.foldl Nat.min x

/-- Maximum of a list of naturals. -/
def maxL : List ℕ → ℕ
  | [] => 0
  | x :: t => t.foldl Nat.max x

/-- The bounding-box computation of `_add_component` and `sam_segment`:
`[xs.min, ys.min, xs.max, ys.max] if xs.size else [0,0,0,0]`. -/
def bboxOf (m : Mask2) : ℕ × ℕ × ℕ × ℕ :=
  let cs := maskCoords m
  if cs.isEmpty then (0, 0, 0, 0)
  else (minL (cs.map (·.2)), minL (cs.map (·.1)),
        maxL (cs.map (·.2)), maxL (cs.map (·.1)))

/-- The pixel area `int(mask.sum())`. -/
def maskArea (m : Mask2) : ℕ := (maskCoords m).length

/-- The combined bounding-box-and-area computation
`(xmin, ymin, xmax, ymax, area)` that `_add_component` and `sam_segment`
perform (the spec's `bbox_and_area`). -/
def bbox_and_area (m : Mask2) : ℕ × ℕ × ℕ × ℕ × ℕ :=
  let b := bboxOf m
  (b.1, b.2.1, b.2.2.1, b.2.2.2, maskArea m)

/-- A normalized point prompt (`{x_norm, y_norm, positive}`). -/
structure NormPoint where
  x_norm : ℚ
  y_norm : ℚ
  positive : Bool := true
deriving DecidableEq

/-- A saved component of a session (`_add_component`). -/
structure Component where
  id : ℕ
  mask : Mask2
  bbox : ℕ × ℕ × ℕ × ℕ
  area : ℕ
  score : ℚ
  name : String
deriving DecidableEq

/-- The per-session state created by `_session_init`. -/
structure Session where
  image : Image8
  imageHash : String
  components : List (ℕ × Component)
  nextComponentId : ℕ
  points : List NormPoint
deriving DecidableEq

/-- Embedding of `_session_init`: fresh session with `next_component_id = 1`. -/
def session_init (image : Image8) (imageHash : String) : Session :=
  { image := image, imageHash := imageHash, components := [],
    nextComponentId := 1, points := [] }

/-- Embedding of `_add_component`: assigns `next_component_id` (then increments it),
computes the bounding box and area, and stores the component. -/
def add_component (mask : Mask2) (score : ℚ) (name : Option String)
    (s : Session) : Component × Session :=
  let compId := s.nextComponentId
  let comp : Component :=
    { id := compId, mask := mask, bbox := bboxOf mask, area := maskArea mask,
      score := score, name := name.getD ("component_" ++ toString compId) }
  (comp, { s with nextComponentId := compId + 1,
                  components := s.components ++ [(compId, comp)] })

/-- Operations on one session's component map.  `add` is `_add_component`
from the source; `remove` is the logical deletion of one component, which
has no endpoint in the source.  Modelled from the spec: "never reused even
after logical deletion — monotonic counter per session": deletion removes
the map entry only and does not touch the counter. -/
inductive SessOp
  | add (mask : Mask2) (score : ℚ) (name : Option String)
  | remove (cid : ℕ)

/-- Run one session operation, returning the id assigned (for `add`). -/
def applySessOp (s : Session) : SessOp → Session × Option ℕ
  | .add m sc nm => let r := add_component m sc nm s; (r.2, some r.1.id)
  | .remove cid => ({ s with components := s.components.filter (·.1 ≠ cid) }, none)

/-- Run a sequence of session operations, collecting the assigned ids. -/
def runSessOps : Session → List SessOp → Session × List ℕ
  | s, [] => (s, [])
  | s, op :: ops =>
    match applySessOp s op with
    | (s', some i) => let r := runSessOps s' ops; (r.1, i :: r.2)
    | (s', none) => runSessOps s' ops

/-- Number of `add` operations in a sequence. -/
def countAdds (ops : List SessOp) : ℕ :=
  ops.countP (fun op => match op with | .add _ _ _ => true | _ => false)

/-- An RGB image with its dimensions (`arr.shape`). -/
structure Img2 where
  h : ℕ
  w : ℕ
  pix : Image8
deriving DecidableEq

/-- The external SAM capability, abstracted over the opaque feature type
`F` (`predictor.features`): availability of the package, loadability of the
checkpoint (`_load_sam_model`), `predictor.set_image`-then-read-features,
and `predictor.predict` on the image features, pixel coordinates and
labels, which may raise. -/
structure SamEnv (F : Type) where
  samAvailable : Bool
  loadSucceeds : Bool
  setImage : Image8 → F
  predict : F → List (ℤ × ℤ) → List ℕ → Except String (List (Mask2 × ℚ))

/-- The module-level mutable state touched by `_predict_sam_mask`:
whether `_SAM_PREDICTOR` is loaded, the `_EMBEDDING_CACHE` dict, and the
predictor's current `features`. -/
structure SamState (F : Type) where
  predictorLoaded : Bool
  cache : List (String × F)
  features : Option F

/-- The outcome of one `_predict_sam_mask` call.  `state` is returned even
when the call raises, because the globals it mutated (the cache, the
predictor) survive a Python exception.  `usedFeatures` is the feature blob
the predictor held during `predict`; `computes` counts the
`predictor.set_image` invocations (0 or 1). -/
structure PredictOut (F : Type) where
  result : Except String (Option Mask2 × Option ℚ)
  state : SamState F
  usedFeatures : Option F
  computes : ℕ

/-- Python 3 `round` on a float: round-half-to-even. -/
def pyRound (x : ℚ) : ℤ :=
  let f := ⌊x⌋
  let r := x - f
  if r < 1/2 then f
  else if 1/2 < r then f + 1
  else if f % 2 = 0 then f else f + 1

/-- Integer clamping `min(hi, max(lo, v))`. -/
def clampI (lo hi v : ℤ) : ℤ := min hi (max lo v)

/-- Selection by `np.argsort(-scores); idx = order[0]`: the first candidate carrying
the maximal score (`none` on an empty candidate list, where the source
would raise an IndexError). -/
def argmax_by_score : List (Mask2 × ℚ) → Option (Mask2 × ℚ)
  | [] => none
  | x :: t => some (t.foldl (fun best y => if best.2 < y.2 then y else best) x)

/-- The part of `_predict_sam_mask` after the availability and load checks
(the predictor is loaded here): prompt check, embedding-cache lookup or
compute-and-store, coordinate denormalization, and the model call. -/
def predict_go {F : Type} (env : SamEnv F) (st : SamState F) (arr : Img2)
    (normPoints : List NormPoint) (cacheKey : Option String) : PredictOut F :=
  if normPoints = [] then ⟨.ok (none, none), st, none, 0⟩
  else
    -- if cache_key and cache_key in _EMBEDDING_CACHE: hit
    -- else: set_image;  if cache_key: store
    let hit : Option F :=
      match cacheKey with
      | some k => if k = "" then none else st.cache.lookup k
      | none => none
    let step : F × SamState F × ℕ :=
      match hit with
      | some f => (f, { st with features := some f }, 0)
      | none =>
        let f := env.setImage arr.pix
        let st' := { st with features := some f }
        match cacheKey with
        | some k =>
          if k = "" then (f, st', 1)
          else (f, { st' with cache := (k, f) :: st'.cache }, 1)
        | none => (f, st', 1)
    let feats := step.1
    let st1 := step.2.1
    let computes := step.2.2
    let pts := normPoints.map (fun p =>
      (clampI 0 ((arr.w : ℤ) - 1) (pyRound (p.x_norm * ((arr.w : ℚ) - 1))),
       clampI 0 ((arr.h : ℤ) - 1) (pyRound (p.y_norm * ((arr.h : ℚ) - 1)))))
    let labels := normPoints.map (fun p => if p.positive then (1 : ℕ) else 0)
    let result : Except String (Option Mask2 × Option ℚ) :=
      match env.predict feats pts labels with
      | .error e => .error e
      | .ok cands =>
        match argmax_by_score cands with
        | none => .error "IndexError: index 0 is out of bounds for axis 0 with size 0"
        | some best => .ok (some best.1, some best.2)
    ⟨result, st1, some feats, computes⟩

/-- Embedding of `_predict_sam_mask(arr, norm_points, cache_key)` of `py/app.py`.
Soft-fails (returns the `(None, None)` pair) when SAM is unavailable or the
model cannot be loaded; a successful lazy load flips the predictor state. -/
def predict_sam_mask {F : Type} (env : SamEnv F) (st : SamState F) (arr : Img2)
    (normPoints : List NormPoint) (cacheKey : Option String) : PredictOut F :=
  if env.samAvailable then
    match st.predictorLoaded, env.loadSucceeds with
    | false, false => ⟨.ok (none, none), st, none, 0⟩
    | false, true => predict_go env { st with predictorLoaded := true } arr normPoints cacheKey
    | true, _ => predict_go env st arr normPoints cacheKey
  else ⟨.ok (none, none), st, none, 0⟩

/-- Batch mode: `'full'` (whole frame as one region) or `'center_point'`
(single positive SAM prompt at the image center). -/
inductive Mode
  | full
  | center_point
deriving DecidableEq

/-- One uploaded file of a batch request: its filename and an opaque token
standing for its raw bytes. -/
structure BFile where
  filename : String
  bytes : ℕ
deriving DecidableEq

/-- The JSON object built for one image by the `_gen` generator of
`sam_batch_process_stream` (`out_obj`).  Fields are filled in the order the
source assigns them; on an exception the fields assigned so far survive and
`error` is set. -/
structure EventObj where
  filename : String
  mode : Mode
  imageId : Option String := none
  score : Option ℚ := none
  variantPng : Option String := none
  maskPng : Option String := none
  error : Option String := none
deriving DecidableEq

/-- One server-sent event of the stream: a `data: {json}` record or the
terminal `data: [DONE]` sentinel. -/
inductive StreamEvent
  | data (obj : EventObj)
  | done
deriving DecidableEq

/-- External collaborators of the batch endpoints: the numeric
collaborators of the compositor, PIL decoding of raw bytes, SHA-1 of the
bytes, `uuid4().hex` (by allocation index), PNG+base64 encoding, and the
SAM capability. -/
structure BatchEnv (F : Type) where
  num : NumEnv
  decode : ℕ → Except String Img2
  hashBytes : ℕ → String
  freshId : ℕ → String
  encodePng : Image8 → String
  encodeMaskPng : Mask2 → String
  sam : SamEnv F

/-- Module-level state the batch generator threads: the session map, the
uuid allocation counter, and the SAM predictor/cache state. -/
structure BatchSt (F : Type) where
  sessions : List (String × Session)
  nextUuid : ℕ
  sam : SamState F

/-- Update the session stored under `sid` in place. -/
def updateSessions (sid : String) (g : Session → Session) :
    List (String × Session) → List (String × Session)
  | [] => []
  | (k, s) :: t =>
    if k = sid then (k, g s) :: t else (k, s) :: updateSessions sid g t

/-- The mask/score selection of the stream body: `full` uses an all-ones
mask and score 1.0; `center_point` asserts the predictor, sets the image
and predicts on the single center point `(w//2, h//2)` with label 1,
keeping the highest-scoring candidate.  The state is returned even when
the block raises. -/
def mask_for_mode {F : Type} (env : BatchEnv F) (mode : Mode) (st : BatchSt F)
    (arr : Img2) : Except String (Mask2 × ℚ) × BatchSt F :=
  match mode with
  | .full => (.ok (List.replicate arr.h (List.replicate arr.w true), 1), st)
  | .center_point =>
    if st.sam.predictorLoaded then
      let feats := env.sam.setImage arr.pix
      let st := { st with sam := { st.sam with features := some feats } }
      match env.sam.predict feats [((arr.w : ℤ) / 2, (arr.h : ℤ) / 2)] [1] with
      | .error e => (.error e, st)
      | .ok cands =>
        match argmax_by_score cands with
        | none => (.error "IndexError: index 0 is out of bounds for axis 0 with size 0", st)
        | some best => (.ok (best.1, best.2), st)
    else (.error "AssertionError", st)

/-- The guard `any(comp_edit.get(k) not in (0, None) for k in (...)) or
opacity_val is not None` of the batch endpoints. -/
def any_edit_check (ced : Edit) (opacity : Option (Option ℚ)) : Bool :=
  decide (ced.brightness ≠ 0) || decide (ced.contrast ≠ 0) ||
    decide (ced.gamma ≠ 0) ||
    (match ced.hue with | some (some v) => decide (v ≠ 0) | _ => false) ||
    (match ced.saturation with | some (some v) => decide (v ≠ 0) | _ => false) ||
    decide (ced.sharpen ≠ 0) || decide (ced.noise ≠ 0) || opacity.isSome

/-- The body of the `for f in files:` loop of the `_gen` generator of
`sam_batch_process_stream`: decode, session creation, mask selection,
component bookkeeping, optional edit application with opacity blending,
and encoding; any exception is caught and recorded on the event object
(fields assigned before the exception survive). -/
def batch_stream_item {F : Type} (env : BatchEnv F) (ced : Edit)
    (opacity : Option (Option ℚ)) (mode : Mode) (exportMask : Bool)
    (st : BatchSt F) (f : BFile) : EventObj × BatchSt F :=
  let obj0 : EventObj := { filename := f.filename, mode := mode }
  match env.decode f.bytes with
  | .error e => ({ obj0 with error := some ("processing_failed:" ++ e) }, st)
  | .ok arr =>
    let sid := env.freshId st.nextUuid
    let st := { st with
      sessions := (sid, session_init arr.pix (env.hashBytes f.bytes)) :: st.sessions,
      nextUuid := st.nextUuid + 1 }
    let obj1 := { obj0 with imageId := some sid }
    match mask_for_mode env mode st arr with
    | (.error e, st) => ({ obj1 with error := some ("processing_failed:" ++ e) }, st)
    | (.ok ms, st) =>
      let mask := ms.1
      let score := ms.2
      let obj2 := { obj1 with score := some score }
      let st := { st with
        sessions := updateSessions sid
          (fun s => (add_component mask score (some "batch_component") s).2)
          st.sessions }
      let mflat := mask.flatten
      let compMask := mflat.map (fun b => if b then (1 : ℕ) else 0)
      let editedE : Except String Image8 :=
        if any_edit_check ced opacity then
          match apply_edits env.num arr.pix mflat (some compMask) [ced] with
          | .error e => .error e
          | .ok ec => .ok (opacity_blend opacity ec arr.pix mflat)
        else .ok arr.pix
      match editedE with
      | .error e => ({ obj2 with error := some ("processing_failed:" ++ e) }, st)
      | .ok edited =>
        let obj3 := { obj2 with variantPng := some (env.encodePng edited) }
        let obj4 := if exportMask then { obj3 with maskPng := some (env.encodeMaskPng mask) } else obj3
        (obj4, st)

/-- The per-file events yielded by the `_gen` generator, in input order,
threading the module state through the loop. -/
def batch_stream_events {F : Type} (env : BatchEnv F) (ced : Edit)
    (opacity : Option (Option ℚ)) (mode : Mode) (exportMask : Bool) :
    BatchSt F → List BFile → List StreamEvent
  | _, [] => []
  | st, f :: fs =>
    let p := batch_stream_item env ced opacity mode exportMask st f
    .data p.1 :: batch_stream_events env ced opacity mode exportMask p.2 fs

/-- The full event sequence of `sam_batch_process_stream`: one `data`
event per input file, then the `data: [DONE]` sentinel. -/
def sam_batch_process_stream {F : Type} (env : BatchEnv F) (ced : Edit)
    (opacity : Option (Option ℚ)) (mode : Mode) (exportMask : Bool)
    (st : BatchSt F) (files : List BFile) : List StreamEvent :=
  batch_stream_events env ced opacity mode exportMask st files ++ [.done]

/-- A saved template of a dataset: class tag (`''` when unrestricted) and
normalized point prompts. -/
structure Template where
  cls : String := ""
  points : List NormPoint := []
  name : String := "Template"
deriving DecidableEq

/-- The per-template edit values carried by the `edits` dict of the
dataset endpoints.  The numeric fields are read with
`edit_vals.get(k, 0)`; `hue`/`saturation`/`opacity` with `edit_vals.get(k)`
(absent and `None` coincide). -/
structure TplEditVals where
  brightness : ℚ := 0
  contrast : ℚ := 0
  gamma : ℚ := 0
  hue : Option ℚ := none
  saturation : Option ℚ := none
  sharpen : ℚ := 0
  noise : ℚ := 0
  opacity : Option (Option ℚ) := none
deriving DecidableEq

/-- Whether the first list is a prefix of the second. -/
def listHasPfx [DecidableEq α] : List α → List α → Bool
  | [], _ => true
  | _ :: _, [] => false
  | a :: as, b :: bs => decide (a = b) && listHasPfx as bs

/-- Whether the first list occurs as a contiguous sublist of the second. -/
def listHasSub [DecidableEq α] : List α → List α → Bool
  | sub, [] => sub.isEmpty
  | sub, b :: t => listHasPfx sub (b :: t) || listHasSub sub t

/-- Python `sub in s` substring containment. -/
def containsStr (sub s : String) : Bool := listHasSub sub.toList s.toList

/-- The filename class heuristic of `_apply_templates_with_class_filter`:
`'pass' in filename.lower()` wins over `'fail' in filename.lower()`. -/
def infer_image_class (filename : String) : Option String :=
  let fl := filename.map Char.toLower
  if containsStr "pass" fl then some "pass"
  else if containsStr "fail" fl then some "fail"
  else none

/-- Whether the loop body of `_apply_templates_with_class_filter` reaches a
template (i.e. neither `continue` fires): the class skip is
`template_class and image_class and template_class != image_class`, the
edit skip is `edits and tid not in edits`. -/
def tpl_selected (imageClass : Option String)
    (edits : List (String × TplEditVals)) (tid : String) (tpl : Template) : Bool :=
  (decide (tpl.cls = "") || imageClass.isNone || decide (imageClass = some tpl.cls)) &&
    (edits.isEmpty || (edits.lookup tid).isSome)

/-- The single-entry `payload` list the dataset loops hand to
`apply_edits` (note `hue` and `saturation` are always present as keys,
holding `None` when the user supplied none). -/
def tpl_payload (ev : TplEditVals) : Edit :=
  { id := some 1, brightness := ev.brightness, contrast := ev.contrast,
    gamma := ev.gamma, hue := some ev.hue, saturation := some ev.saturation,
    sharpen := ev.sharpen, noise := ev.noise }

/-- Union of two masks (`cumulative | mask`). -/
def unionMask (a b : Mask2) : Mask2 := List.zipWith (List.zipWith or) a b

/-- One iteration of the `for tid, tpl in templates.items():` loop of
`_apply_templates_with_class_filter`, threading
`(out, cumulative, sam state)`; exceptions (from the predictor or from
`apply_edits`) propagate out of the function, which has no handler. -/
def apply_tpl_step {F : Type} (env : BatchEnv F) (dims : ℕ × ℕ)
    (imageClass : Option String) (edits : List (String × TplEditVals))
    (cacheKey : Option String)
    (acc : Except String (Image8 × Option Mask2 × SamState F))
    (te : String × Template) : Except String (Image8 × Option Mask2 × SamState F) := do
  let (out, cumulative, sst) ← acc
  if tpl_selected imageClass edits te.1 te.2 then
    let po := predict_sam_mask env.sam sst ⟨dims.1, dims.2, out⟩ te.2.points cacheKey
    match po.result with
    | .error e => throw e
    | .ok (none, _) => pure (out, cumulative, po.state)
    | .ok (some mask, _) =>
      let mflat := mask.flatten
      let compMask := mflat.map (fun b => if b then (1 : ℕ) else 0)
      let ev := (edits.lookup te.1).getD {}
      match apply_edits env.num out mflat (some compMask) [tpl_payload ev] with
      | .error e => throw e
      | .ok edited =>
        let edited := opacity_blend ev.opacity edited out mflat
        pure (edited,
          some (match cumulative with | none => mask | some c => unionMask c mask),
          po.state)
  else pure (out, cumulative, sst)

/-- Embedding of `_apply_templates_with_class_filter(arr, templates, edits, filename,
cache_key)` of `py/app.py`: infers the image class from the filename and
folds the template loop over the templates in insertion order. -/
def apply_templates_with_class_filter {F : Type} (env : BatchEnv F)
    (sst : SamState F) (arr : Img2) (templates : List (String × Template))
    (edits : List (String × TplEditVals)) (filename : String)
    (cacheKey : Option String) : Except String (Image8 × Option Mask2 × SamState F) :=
  templates.foldl
    (apply_tpl_step env (arr.h, arr.w) (infer_image_class filename) edits cacheKey)
    (.ok (arr.pix, none, sst))

deriving instance DecidableEq for Except

/-! ## Concrete instantiations used by evaluation theorems and witnesses -/

/-- A concrete instantiation of the numeric collaborators (the claims
evaluated on it never reach `blur`, `normal` or `qpow`). -/
def nm0 : NumEnv := ⟨id, fun _ _ n => List.replicate n ⟨0, 0, 0⟩, fun x _ => x⟩

/-- A 1-by-1 pure-green image (not grayscale). -/
def imgGreen : Image8 := [⟨0, 255, 0⟩]

/-- The edit of the C1 failing input: brightness `+0.5` together with a hue
key (shift 0 degrees), as `sam_apply` would build it from
`{"brightness": 0.5, "hue": 0}`. -/
def editC1 : Edit := { id := some 1, brightness := 1/2, hue := some (some 0) }

/-- The identity edit as every endpoint builds it: all numeric stages 0 and
the `hue`/`saturation` keys present holding Python `None`. -/
def editIdentity : Edit := { id := some 1, hue := some none, saturation := some none }

/-!
## C1 — the hue/saturation stage and the post-b/c/g result
-/

/--
C1: REFUTED (code bug).  The claim says the hue/saturation stage works on a
hue-saturation-value representation derived from the post
brightness/contrast/gamma result, so that the composited output reflects
all earlier stages.  In `apply_edits` the `hsv` array is computed from the
*original* image before the edit loop, and the final
`result = color.hsv2rgb(hsv)` replaces the whole working image, discarding
the brightness/contrast/gamma/sharpen/noise stages for any non-grayscale
input.  Evaluation at the failing input: a 1x1 green pixel with
brightness `+0.5` and a hue shift of 0 degrees over a full mask comes back
*unchanged* (`.ok imgGreen`), where the claim requires the brightness shift
to survive (the pixel would be `(127, 255, 127)`).
-/
theorem c1_hue_stage_discards_earlier_stages :
    apply_edits nm0 imgGreen [true] (some [1]) [editC1] = .ok imgGreen ∧
      imgGreen ≠ [⟨127, 255, 127⟩] := by
  constructor
  · with_unfolding_all decide
  · decide

/-!
## C6 — the identity law of the edit compositor
-/

/--
C6: REFUTED (code bug).  The identity law (brightness=0, contrast=0,
gamma=0, no hue, no saturation, no sharpen, no noise, opacity=1 is a no-op)
fails on every non-grayscale image reached through the repository's
endpoints: each caller builds the payload with `'hue': e.get('hue')`, so
the `hue` key is *present* holding `None`, `apply_edits` tests
`if 'hue' in edit:` and then `float(edit['hue'])` raises `TypeError`.
Evaluation at the failing input: the identity edit on a 1x1 green pixel
raises instead of returning the image unchanged.  (On grayscale images the
hue/saturation block is skipped and the law holds.)
-/
theorem c6_identity_edit_raises_on_color :
    apply_edits nm0 imgGreen [true] (some [1]) [editIdentity] =
      .error "TypeError: float() argument must not be NoneType" := by
  with_unfolding_all decide

/-!
## C8 — deterministic noise seeding
-/

/--
C8: CONFIRMED.  The noise stage of `apply_edits` draws its noise field as
`noise_field normal (countTrue mask) cid std`, whose seed
`noise_seed count cid = (count * (cid + 13)) % (2^32 - 1)` depends only on
the region pixel count and the region id: two invocations with identical
pixel count, region id and standard deviation produce bit-identical noise
fields.
-/
theorem c8_noise_deterministic (normal : ℤ → ℚ → ℕ → List (Tri ℚ))
    (m1 m2 : Mask1) (cid : ℤ) (std : ℚ)
    (h : countTrue m1 = countTrue m2) :
    noise_field normal (countTrue m1) cid std =
        noise_field normal (countTrue m2) cid std ∧
      noise_field normal (countTrue m1) cid std =
        normal (noise_seed (countTrue m1) cid) std (countTrue m1) := by
  constructor
  · rw [h]
  · rfl

/-- Witness for C8 at two concrete masks of equal pixel count and a noise
generator that depends on all of seed, std and count. -/
theorem c8_noise_deterministic_witness :
    countTrue [true, false, true] = countTrue [false, true, true] ∧
      noise_field (fun s q n => List.replicate n ⟨(s : ℚ), q, (n : ℚ)⟩)
          (countTrue [true, false, true]) 1 (1/10) =
        noise_field (fun s q n => List.replicate n ⟨(s : ℚ), q, (n : ℚ)⟩)
          (countTrue [false, true, true]) 1 (1/10) :=
  ⟨by decide,
   (c8_noise_deterministic (fun s q n => List.replicate n ⟨(s : ℚ), q, (n : ℚ)⟩)
     [true, false, true] [false, true, true] 1 (1/10) (by decide)).1⟩

/-!
## C9 — bounding box and area of an empty mask
-/

/-- Applying `np.where` to an all-false mask finds no coordinates. -/
lemma maskCoords_eq_nil {m : Mask2} (h : ∀ row ∈ m, ∀ b ∈ row, b = false) :
    maskCoords m = [] := by
  unfold maskCoords
  rw [List.flatten_eq_nil_iff]
  intro l hl
  rw [List.mem_map] at hl
  obtain ⟨r, hr, rfl⟩ := hl
  rw [List.filterMap_eq_nil_iff]
  intro c hc
  have hrow : r.2 ∈ m := List.getElem?_mem (List.mem_enum_iff_getElem?.1 hr)
  have hb : c.2 ∈ r.2 := List.getElem?_mem (List.mem_enum_iff_getElem?.1 hc)
  simp [h r.2 hrow c.2 hb]

/--
C9: CONFIRMED.  For an all-false mask, the bounding-box-and-area
computation of `_add_component` / `sam_segment`
(`[xs.min, ys.min, xs.max, ys.max] if xs.size else [0,0,0,0]` together with
`area = mask.sum()`) returns exactly `(0, 0, 0, 0, 0)` — a defined edge
case, not an error.
-/
theorem c9_bbox_and_area_empty (m : Mask2)
    (h : ∀ row ∈ m, ∀ b ∈ row, b = false) :
    bbox_and_area m = (0, 0, 0, 0, 0) := by
  have hc := maskCoords_eq_nil h
  simp [bbox_and_area, bboxOf, maskArea, hc]

/-- Witness for C9 on a concrete all-false 2x2 mask. -/
theorem c9_bbox_and_area_empty_witness :
    bbox_and_area [[false, false], [false, false]] = (0, 0, 0, 0, 0) :=
  c9_bbox_and_area_empty [[false, false], [false, false]] (by decide)

/-!
## C10 — opacity conversion failure and clamping
-/

/--
C10: CONFIRMED.  In the opacity blending block shared by `sam_apply` and
`_apply_templates_with_class_filter`: a supplied opacity value that
`float()` rejects is treated as `1.0`, so the edited result is used
unmodified; a numeric opacity is clamped into `[0,1]` before blending, so a
negative opacity becomes blend factor `0` and the blend
`(0 * edited + 1 * prev).astype(uint8)` restores the pre-edit pixels of the
region exactly (pixels outside the region keep the edited value, as in the
source), rather than extrapolating beyond the pre-edit image.
-/
theorem c10_opacity_conversion_and_clamp (v : ℚ) (hv : v < 0)
    (edited prev : Image8) (mask : Mask1) :
    opacity_blend (some none) edited prev mask = edited ∧
      opacity_blend (some (some v)) edited prev mask =
        zipWith3' (fun m e p => if m then p else e) mask edited prev := by
  constructor
  · simp [opacity_blend]
  · have hmin : min (1 : ℚ) v = v := min_eq_right (le_of_lt (hv.trans zero_lt_one))
    have hmax : max (0 : ℚ) v = 0 := max_eq_left (le_of_lt hv)
    have hfun : (fun (m : Bool) (e p : Tri ℕ) =>
        if m then Tri.zip (fun (x y : ℕ) =>
          (⌊(0 : ℚ) * x + (1 - 0) * y⌋).toNat) e p else e) =
        fun m e p => if m then p else e := by
      funext m e p
      cases m
      · simp
      · simp [Tri.zip]
    simp only [opacity_blend, hmin, hmax]
    rw [if_pos (by norm_num : (0 : ℚ) < 1), hfun]

/-- Witness for C10 at opacity `-1/2` on a concrete one-pixel region. -/
theorem c10_opacity_conversion_and_clamp_witness :
    opacity_blend (some none) [⟨10, 20, 30⟩] [⟨1, 2, 3⟩] [true] = [⟨10, 20, 30⟩] ∧
      opacity_blend (some (some (-1/2))) [⟨10, 20, 30⟩] [⟨1, 2, 3⟩] [true] =
        zipWith3' (fun m e p => if m then p else e) [true] [⟨10, 20, 30⟩] [⟨1, 2, 3⟩] :=
  c10_opacity_conversion_and_clamp (-1/2) (by norm_num) [⟨10, 20, 30⟩] [⟨1, 2, 3⟩] [true]

/-!
## C7 — monotone component identities
-/

/-- Along any operation sequence, the ids assigned by `_add_component` are
the interval starting at the session's current counter, and the counter
advances by the number of adds (deletions touch neither). -/
lemma runSessOps_ids (ops : List SessOp) : ∀ s : Session,
    (runSessOps s ops).2 = List.range' s.nextComponentId (countAdds ops) ∧
    (runSessOps s ops).1.nextComponentId = s.nextComponentId + countAdds ops := by
  induction ops with
  | nil => intro s; simp [runSessOps, countAdds]
  | cons op ops ih =>
    intro s
    cases op with
    | add m sc nm =>
      have h := ih ((add_component m sc nm s).2)
      simp only [runSessOps, applySessOp, countAdds, List.countP_cons] at *
      rw [h.1, h.2]
      refine ⟨?_, ?_⟩
      · simp [add_component, List.range'_succ]
      · simp [add_component]; omega
    | remove cid =>
      have h := ih { s with components := s.components.filter (·.1 ≠ cid) }
      simp only [runSessOps, applySessOp, countAdds, List.countP_cons] at *
      rw [h.1, h.2]
      simp

/--
C7: CONFIRMED.  Starting from `_session_init` (counter 1), the component
ids assigned by successive `_add_component` calls within one session are
exactly `1, 2, 3, ...` in order — a strictly increasing sequence starting
at 1 — and remain so regardless of interleaved component deletions, which
remove map entries without touching the counter, so an id is never reused.
-/
theorem c7_component_ids_strictly_increasing (img : Image8) (hash : String)
    (ops : List SessOp) :
    (runSessOps (session_init img hash) ops).2 = List.range' 1 (countAdds ops) ∧
      (runSessOps (session_init img hash) ops).2.Pairwise (· < ·) := by
  have h := (runSessOps_ids ops (session_init img hash)).1
  rw [show (session_init img hash).nextComponentId = 1 from rfl] at h
  exact ⟨h, h ▸ List.pairwise_lt_range' 1 (countAdds ops)⟩

/-!
## C4 — embedding cache computes at most once
-/

/-- A loaded predictor with an empty cache. -/
def samSt0 : SamState ℕ := ⟨true, [], none⟩

/-- A 1x1 black image. -/
def arrBlack : Img2 := ⟨1, 1, [⟨0, 0, 0⟩]⟩

/-- A single centered positive prompt. -/
def ptsCenter : List NormPoint := [⟨0, 0, true⟩]

/-- A SAM environment whose model call succeeds with one candidate. -/
def samEnvHit : SamEnv ℕ :=
  ⟨true, true, fun _ => 42, fun _ _ _ => .ok [([[true]], 1)]⟩

/--
C4: CONFIRMED.  When the cache path of `_predict_sam_mask` is reached
(SAM available, predictor loaded, prompts nonempty, non-empty cache key)
twice sequentially with the same key and no eviction occurs (the source
cache has no eviction), the featurization `predictor.set_image` runs at
most once across the two calls — exactly once when the key was absent,
never when it was already cached — and both calls hold the same feature
value while predicting.
-/
theorem c4_cache_computes_at_most_once {F : Type} (env : SamEnv F)
    (st : SamState F) (arr1 arr2 : Img2) (p1 p2 : List NormPoint) (k : String)
    (ha : env.samAvailable = true) (hl : st.predictorLoaded = true)
    (h1 : p1 ≠ []) (h2 : p2 ≠ []) (hk : k ≠ "") :
    (predict_sam_mask env st arr1 p1 (some k)).computes +
        (predict_sam_mask env (predict_sam_mask env st arr1 p1 (some k)).state
          arr2 p2 (some k)).computes ≤ 1 ∧
      (predict_sam_mask env st arr1 p1 (some k)).usedFeatures =
        (predict_sam_mask env (predict_sam_mask env st arr1 p1 (some k)).state
          arr2 p2 (some k)).usedFeatures ∧
      (predict_sam_mask env st arr1 p1 (some k)).usedFeatures.isSome = true := by
  simp only [predict_sam_mask, ha, if_true, hl]
  cases hc : st.cache.lookup k with
  | some f =>
    simp only [predict_go, if_neg h1, if_neg h2, if_neg hk, hc, hl]
    exact ⟨by norm_num, trivial, rfl⟩
  | none =>
    simp only [predict_go, if_neg h1, if_neg h2, if_neg hk, hc, hl,
      List.lookup, beq_self_eq_true]
    exact ⟨by norm_num, trivial, rfl⟩

/-- Witness for C4: a concrete environment and empty cache; the second
call hits the entry stored by the first, with one compute in total. -/
theorem c4_cache_computes_at_most_once_witness :
    (predict_sam_mask samEnvHit samSt0 arrBlack ptsCenter (some "key")).computes +
        (predict_sam_mask samEnvHit
          (predict_sam_mask samEnvHit samSt0 arrBlack ptsCenter (some "key")).state
          arrBlack ptsCenter (some "key")).computes ≤ 1 ∧
      (predict_sam_mask samEnvHit samSt0 arrBlack ptsCenter (some "key")).usedFeatures =
        (predict_sam_mask samEnvHit
          (predict_sam_mask samEnvHit samSt0 arrBlack ptsCenter (some "key")).state
          arrBlack ptsCenter (some "key")).usedFeatures ∧
      (predict_sam_mask samEnvHit samSt0 arrBlack ptsCenter (some "key")).usedFeatures.isSome = true :=
  c4_cache_computes_at_most_once samEnvHit samSt0 arrBlack arrBlack ptsCenter
    ptsCenter "key" rfl rfl (by decide) (by decide) (by decide)

/-!
## C5 — soft failure of the segmentation adapter
-/

/-- A SAM environment whose underlying model call raises. -/
def samEnvRaise : SamEnv ℕ :=
  ⟨true, true, fun _ => 0, fun _ _ _ => .error "RuntimeError: boom"⟩

/--
C5: REFUTED as stated.  `_predict_sam_mask` has no exception handler: when
the underlying model call raises, the exception escapes to the caller
instead of being converted to the `(None, None)` tuple.  Concretely, with
an available, loaded predictor whose `predict` raises, the call propagates
the error (and in particular does not return `(None, None)`).
-/
theorem c5_exception_escapes_counterexample :
    (predict_sam_mask samEnvRaise samSt0 arrBlack ptsCenter none).result =
        .error "RuntimeError: boom" ∧
      (predict_sam_mask samEnvRaise samSt0 arrBlack ptsCenter none).result ≠
        .ok (none, none) := by
  constructor
  · with_unfolding_all decide
  · with_unfolding_all decide

/--
C5 (amended): the adapter returns the `(None, None)` tuple — without
raising — in the first three cases: the SAM capability unavailable, the
predictor absent and not loadable, or no point prompts supplied.  (An
exception from the underlying model call, by contrast, propagates to the
caller; the callers, not the adapter, catch it.)
-/
theorem c5_soft_failure_amended {F : Type} (env : SamEnv F) (st : SamState F)
    (arr : Img2) (pts : List NormPoint) (ck : Option String)
    (h : env.samAvailable = false ∨
      (st.predictorLoaded = false ∧ env.loadSucceeds = false) ∨ pts = []) :
    (predict_sam_mask env st arr pts ck).result = .ok (none, none) := by
  rcases h with h | ⟨h1, h2⟩ | h
  · simp [predict_sam_mask, h]
  · cases ha : env.samAvailable
    · simp [predict_sam_mask, ha]
    · simp [predict_sam_mask, ha, h1, h2]
  · cases ha : env.samAvailable
    · simp [predict_sam_mask, ha]
    · cases hl : st.predictorLoaded <;> cases hls : env.loadSucceeds <;>
        simp [predict_sam_mask, ha, hl, hls, predict_go, h]

/-- Witness for the amended C5 in the no-prompt case. -/
theorem c5_soft_failure_amended_witness :
    (predict_sam_mask samEnvRaise samSt0 arrBlack ([] : List NormPoint) none).result =
      .ok (none, none) :=
  c5_soft_failure_amended samEnvRaise samSt0 arrBlack [] none (Or.inr (Or.inr rfl))

/-!
## C2 — one event per input, error isolation, terminal sentinel
-/

/-- Every branch of the stream body emits an event carrying the input's
filename, and an event without an error field carries an encoded variant
(success record). -/
lemma batch_stream_item_spec {F : Type} (env : BatchEnv F) (ced : Edit)
    (opacity : Option (Option ℚ)) (mode : Mode) (exportMask : Bool)
    (st : BatchSt F) (f : BFile) :
    ((batch_stream_item env ced opacity mode exportMask st f).1).filename = f.filename ∧
      (((batch_stream_item env ced opacity mode exportMask st f).1).error = none →
        ((batch_stream_item env ced opacity mode exportMask st f).1).variantPng.isSome = true) := by
  unfold batch_stream_item
  dsimp only
  repeat' split
  all_goals refine ⟨rfl, fun h => ?_⟩
  all_goals first | rfl | simp at h

/-- The generator yields exactly one non-terminal event per input file. -/
lemma batch_stream_events_length {F : Type} (env : BatchEnv F) (ced : Edit)
    (opacity : Option (Option ℚ)) (mode : Mode) (exportMask : Bool) :
    ∀ (files : List BFile) (st : BatchSt F),
      (batch_stream_events env ced opacity mode exportMask st files).length =
        files.length := by
  intro files
  induction files with
  | nil => intro st; rfl
  | cons f fs ih =>
    intro st
    simp only [batch_stream_events, List.length_cons, ih]

/-- The `i`-th non-terminal event belongs to the `i`-th input file and is
either a success record (no error, encoded variant present) or a per-item
failure record (error recorded). -/
lemma batch_stream_events_get {F : Type} (env : BatchEnv F) (ced : Edit)
    (opacity : Option (Option ℚ)) (mode : Mode) (exportMask : Bool) :
    ∀ (files : List BFile) (st : BatchSt F) (i : ℕ) (h : i < files.length),
      ∃ o, (batch_stream_events env ced opacity mode exportMask st files)[i]? =
          some (.data o) ∧
        o.filename = (files.get ⟨i, h⟩).filename ∧
        ((o.error = none ∧ o.variantPng.isSome = true) ∨ o.error.isSome = true) := by
  intro files
  induction files with
  | nil => intro st i h; exact absurd h (by simp)
  | cons f fs ih =>
    intro st i h
    cases i with
    | zero =>
      have hs := batch_stream_item_spec env ced opacity mode exportMask st f
      refine ⟨(batch_stream_item env ced opacity mode exportMask st f).1,
        by simp [batch_stream_events], hs.1, ?_⟩
      cases he : ((batch_stream_item env ced opacity mode exportMask st f).1).error with
      | none => exact Or.inl ⟨rfl, hs.2 he⟩
      | some e => exact Or.inr (by simp [he])
    | succ n =>
      have h' : n < fs.length := by simpa using h
      obtain ⟨o, h1, h2, h3⟩ :=
        ih (batch_stream_item env ced opacity mode exportMask st f).2 n h'
      exact ⟨o, by simpa [batch_stream_events] using h1, h2, h3⟩

/--
C2: CONFIRMED.  For every list of input files, the event sequence of
`sam_batch_process_stream` has exactly one non-terminal event per input
file plus the terminal `[DONE]` sentinel as its last element; the `i`-th
non-terminal event carries the `i`-th input's filename (input order), and
each such event is either a success record (no error, encoded variant
present) or a per-item failure record (error recorded) — so a decode or
inference failure on one image is recorded on that event and never aborts
the remaining images.
-/
theorem c2_stream_one_event_per_file {F : Type} (env : BatchEnv F) (ced : Edit)
    (opacity : Option (Option ℚ)) (mode : Mode) (exportMask : Bool)
    (st : BatchSt F) (files : List BFile) (i : ℕ) (h : i < files.length) :
    (sam_batch_process_stream env ced opacity mode exportMask st files).length =
        files.length + 1 ∧
      (sam_batch_process_stream env ced opacity mode exportMask st files).getLast? =
        some .done ∧
      ∃ o, (sam_batch_process_stream env ced opacity mode exportMask st files)[i]? =
          some (.data o) ∧
        o.filename = (files.get ⟨i, h⟩).filename ∧
        ((o.error = none ∧ o.variantPng.isSome = true) ∨ o.error.isSome = true) := by
  refine ⟨?_, ?_, ?_⟩
  · simp [sam_batch_process_stream, batch_stream_events_length]
  · exact List.getLast?_concat _
  · obtain ⟨o, h1, h2, h3⟩ :=
      batch_stream_events_get env ced opacity mode exportMask files st i h
    refine ⟨o, ?_, h2, h3⟩
    rw [sam_batch_process_stream, List.getElem?_append,
      if_pos (by rw [batch_stream_events_length]; exact h), h1]

/-- The batch environment of the C2 witness: file token 2 fails decoding,
every other token decodes to a 1x1 gray image. -/
def batchEnvW : BatchEnv ℕ :=
  { num := nm0,
    decode := fun b => if b = 2 then .error "decode_failed"
      else .ok ⟨1, 1, [⟨100, 100, 100⟩]⟩,
    hashBytes := fun _ => "h",
    freshId := fun n => toString n,
    encodePng := fun _ => "png",
    encodeMaskPng := fun _ => "mask",
    sam := ⟨false, false, fun _ => 0, fun _ _ _ => .error "unavailable"⟩ }

/-- Three uploaded files; the second one is undecodable. -/
def filesW : List BFile := [⟨"a.png", 1⟩, ⟨"b.png", 2⟩, ⟨"c.png", 3⟩]

/-- Initial module state for the C2 witness. -/
def batchStW : BatchSt ℕ := ⟨[], 0, ⟨false, [], none⟩⟩

/-- Witness for C2: the spec's 3-image scenario with the 2nd failing to
decode — 3 non-terminal events plus the sentinel, in input order. -/
theorem c2_stream_one_event_per_file_witness :
    (sam_batch_process_stream batchEnvW {} none .full false batchStW filesW).length = 4 ∧
      (sam_batch_process_stream batchEnvW {} none .full false batchStW filesW).getLast? =
        some .done ∧
      ∃ o, (sam_batch_process_stream batchEnvW {} none .full false batchStW filesW)[1]? =
          some (.data o) ∧
        o.filename = "b.png" ∧
        ((o.error = none ∧ o.variantPng.isSome = true) ∨ o.error.isSome = true) :=
  c2_stream_one_event_per_file batchEnvW {} none .full false batchStW filesW 1
    (by decide)

/-!
## C3 — class-filtered template application
-/

/-- A template the loop body skips (either `continue` fires) leaves the
loop state untouched. -/
lemma apply_tpl_step_skip {F : Type} (env : BatchEnv F) (dims : ℕ × ℕ)
    (ic : Option String) (edits : List (String × TplEditVals))
    (ck : Option String) (acc : Except String (Image8 × Option Mask2 × SamState F))
    (te : String × Template) (hsel : tpl_selected ic edits te.1 te.2 = false) :
    apply_tpl_step env dims ic edits ck acc te = acc := by
  cases acc with
  | error e => rfl
  | ok v =>
    obtain ⟨out, cum, sst⟩ := v
    simp [apply_tpl_step, hsel]

/-- The template loop is the same loop run over only the selected
templates, in unchanged (insertion) order. -/
lemma apply_tpl_foldl_filter {F : Type} (env : BatchEnv F) (dims : ℕ × ℕ)
    (ic : Option String) (edits : List (String × TplEditVals))
    (ck : Option String) :
    ∀ (templates : List (String × Template))
      (acc : Except String (Image8 × Option Mask2 × SamState F)),
      templates.foldl (apply_tpl_step env dims ic edits ck) acc =
        (templates.filter (fun te => tpl_selected ic edits te.1 te.2)).foldl
          (apply_tpl_step env dims ic edits ck) acc := by
  intro templates
  induction templates with
  | nil => intro acc; rfl
  | cons t ts ih =>
    intro acc
    cases hsel : tpl_selected ic edits t.1 t.2 with
    | true => simp only [List.foldl_cons, List.filter_cons, hsel, if_pos, ih]
    | false =>
      simp only [List.foldl_cons, List.filter_cons, hsel, Bool.false_eq_true,
        if_false, ih, apply_tpl_step_skip env dims ic edits ck acc t hsel]

/-- The batch environment of the C3 counterexample: the predictor is
available and returns the full 1x1 mask with score 0.9. -/
def tplEnv : BatchEnv ℕ :=
  { num := nm0,
    decode := fun _ => .error "unused",
    hashBytes := fun _ => "h",
    freshId := fun n => toString n,
    encodePng := fun _ => "png",
    encodeMaskPng := fun _ => "mask",
    sam := ⟨true, true, fun _ => 0, fun _ _ _ => .ok [([[true]], 9/10)]⟩ }

/-- A 1x1 mid-gray image. -/
def arrGray : Img2 := ⟨1, 1, [⟨100, 100, 100⟩]⟩

/--
C3: REFUTED as stated.  The claim says template application runs *exactly*
those templates whose class tag is empty or matches the image's inferred
class.  Counterexample: the image `img.png` has *no* inferred class
(its filename contains neither `pass` nor `fail`), yet a template tagged
`class="pass"` still runs — the skip requires `template_class and
image_class and template_class != image_class`, which is false when
`image_class` is `None`.  Concretely the template's brightness edit is
applied (pixel 100 becomes 227) and the cumulative mask is the template's
mask, where the claim requires the untouched input and no accumulated
region.
-/
theorem c3_class_filter_counterexample :
    (apply_templates_with_class_filter tplEnv samSt0 arrGray
        [("t1", { cls := "pass", points := [⟨0, 0, true⟩] })]
        [("t1", { brightness := 1/2 })] "img.png" none).map
        (fun r => (r.1, r.2.1)) =
      .ok ([⟨227, 227, 227⟩], some [[true]]) ∧
    arrGray.pix ≠ [⟨227, 227, 227⟩] := by
  constructor
  · with_unfolding_all decide
  · decide

/--
C3 (amended): template application runs exactly those templates, in
insertion order, that pass both filters of the source: the class filter
(class tag empty, or the image has no inferred class, or the tag equals
the inferred class) and the edit filter (the edits map is empty or
contains the template id).  In particular a template tagged
`class="pass"` run against an image named `sample_fail.png` (inferred
class `fail`) is skipped and the output equals the untouched input with no
accumulated mask.
-/
theorem c3_class_filter_amended :
    (∀ (F : Type) (env : BatchEnv F) (sst : SamState F) (arr : Img2)
        (templates : List (String × Template))
        (edits : List (String × TplEditVals)) (filename : String)
        (ck : Option String),
      apply_templates_with_class_filter env sst arr templates edits filename ck =
        apply_templates_with_class_filter env sst arr
          (templates.filter (fun te =>
            tpl_selected (infer_image_class filename) edits te.1 te.2))
          edits filename ck) ∧
    (∀ (F : Type) (env : BatchEnv F) (sst : SamState F) (arr : Img2)
        (pts : List NormPoint) (edits : List (String × TplEditVals))
        (ck : Option String),
      apply_templates_with_class_filter env sst arr
          [("t1", { cls := "pass", points := pts })] edits "sample_fail.png" ck =
        .ok (arr.pix, none, sst)) := by
  constructor
  · intro F env sst arr templates edits filename ck
    exact apply_tpl_foldl_filter env (arr.h, arr.w) (infer_image_class filename)
      edits ck templates _
  · intro F env sst arr pts edits ck
    have h1 : infer_image_class "sample_fail.png" = some "fail" := by
      with_unfolding_all decide
    have hsel : tpl_selected (infer_image_class "sample_fail.png") edits "t1"
        { cls := "pass", points := pts } = false := by
      simp [tpl_selected, h1]
    unfold apply_templates_with_class_filter
    rw [List.foldl_cons, List.foldl_nil]
    exact apply_tpl_step_skip env (arr.h, arr.w) _ edits ck _ _ hsel
